import Mathlib

/-!
Verification of the auto-backup snapshot engine.

Shallow embedding of the repository's Python sources:
- `Pkg`    embeds `src/backup/manager.py`  (class `BackupManager`)
- `Legacy` embeds `src/backup.py`          (class `BackupManager`, standalone variant)
- `Sched`  embeds `src/backup/scheduler.py` (`IntegrityVerifier`, `BackupScheduler`)

External library calls (`cryptography.fernet.Fernet`, `hashlib.sha256`,
`json`, `lzma`/`tarfile`) are modelled by executable Lean functions that keep
the structure the repository relies on (randomized authenticated encryption,
deterministic fixed-width digests, parse-or-raise, injective packing); the
repository's own control flow is translated statement by statement.
-/

namespace AutoBackup

/-- Byte strings are lists of naturals (each byte taken mod 256 where it matters). -/
abbrev Bytes := List Nat

/-- Result of running a piece of Python code: a value, or a raised exception.
An uncaught exception propagates; `exn` marks that propagation. -/
inductive PyResult (E A : Type) : Type
  | ok (a : A)
  | exn (e : E)
deriving DecidableEq, Repr

/-- The Python exceptions relevant to the embedded code paths. -/
inductive PyError : Type
  | fileNotFoundError
  | jsonDecodeError
deriving DecidableEq, Repr

/-- One hex digit (lower case, as produced by `hexdigest`). -/
def hexChar (n : Nat) : Char :=
  Char.ofNat (if n < 10 then 48 + n else 87 + n)

/-- Fixed-width big-endian hex rendering of a number. -/
def hexDigits (width v : Nat) : List Char :=
  (List.range width).map (fun i => hexChar (v / 16 ^ (width - 1 - i) % 16))

/-- Model of `hashlib.sha256(data).hexdigest()`: a deterministic function from
bytes to a 64-character hex string.  The SHA-256 compression function itself is
library code; it is modelled by a fold, keeping determinism and the fixed-width
hex-digest shape the repository relies on. -/
def sha256Hex (data : Bytes) : String :=
  String.mk (hexDigits 64 (data.foldl (fun a b => (a * 131 + b + 17) % 2 ^ 256) 7))

/-- Code-point key of a string; Python compares `str` values by code points. -/
def strKey (s : String) : List Nat :=
  s.data.map Char.toNat

/-- Python's `<=` on strings: lexicographic comparison of code points. -/
abbrev pyStrLe (a b : String) : Prop :=
  strKey a ≤ strKey b

instance : IsTotal String pyStrLe :=
  ⟨fun a b => le_total (strKey a) (strKey b)⟩

instance : IsTrans String pyStrLe :=
  ⟨fun _ _ _ hab hbc => le_trans hab hbc⟩

/-- Python's substring test `pat in s`, on the underlying characters. -/
def isSubstring (pat : List Char) : List Char → Bool
  | [] => pat.isEmpty
  | c :: rest => pat.isPrefixOf (c :: rest) || isSubstring pat rest

/-- Model of the Fernet keystream (AES-CTR-style byte stream derived from key
and the per-message random nonce/IV).  Any byte-valued function of
`(key, nonce, position)` has the structure the round-trip relies on. -/
def fernetKs (key nonce i : Nat) : Nat :=
  (key * 131 + nonce * 31 + i * 7 + 5) % 256

/-- XOR a byte list against the keystream starting at position `i`. -/
def xorStream (key nonce : Nat) : Nat → Bytes → Bytes
  | _, [] => []
  | i, b :: rest => (b ^^^ fernetKs key nonce i) :: xorStream key nonce (i + 1) rest

/-- Model of the Fernet HMAC tag over the ciphertext body, keyed by the cipher
key and covering the nonce. -/
def fernetMac (key nonce : Nat) (body : Bytes) : Nat :=
  body.foldl (fun a b => (a * 37 + b + 1) % 65536) ((key * 1009 + nonce * 101 + 11) % 65536)

/-- Model of `Fernet(key).encrypt(data)`: a fresh random `nonce` is drawn per
call and embedded in the token, the payload is XORed against the keystream, and
an authentication tag is appended.  (Field order simplified to
`nonce :: tag :: body`; real Fernet also carries a version and timestamp.) -/
def fernetEncrypt (key nonce : Nat) (p : Bytes) : Bytes :=
  let body := xorStream key nonce 0 p
  nonce :: fernetMac key nonce body :: body

/-- Model of `Fernet(key).decrypt(token)`: parse the token, recompute the tag
with the local key, raise `InvalidToken` (here `none`) on mismatch or malformed
input, otherwise undo the keystream. -/
def fernetDecrypt (key : Nat) (c : Bytes) : Option Bytes :=
  match c with
  | nonce :: tag :: body =>
    if fernetMac key nonce body = tag then some (xorStream key nonce 0 body) else none
  | _ => none

/-- Model of `os.path.getsize(path)`: the file's size, or `FileNotFoundError`
when the path does not exist (`none`). -/
def ospGetsize (file : Option Bytes) : PyResult PyError Nat :=
  match file with
  | some d => .ok d.length
  | none => .exn .fileNotFoundError

/-- Model of the `tarfile`+`lzma` packing of an ordered file collection into
one archive payload: an injective encoding of the
`(relative path, content)` pairs; zero entries pack to the empty payload. -/
def serializeEntries (entries : List (String × Bytes)) : Bytes :=
  entries.foldr
    (fun e acc => e.1.length :: ((e.1.data.map Char.toNat) ++ (e.2.length :: (e.2 ++ acc))))
    []

/-! ## `src/backup/manager.py` (`Pkg`) -/

namespace Pkg

/-- Snapshot metadata record written into the manifest by
`BackupManager.create_snapshot` (the `backup_info` dict). -/
structure SnapInfo where
  timestamp : String
  original_size : Nat
  encrypted_size : Nat
  original_hash : String
  final_hash : String
  incremental : Bool
  compression_level : Nat
deriving DecidableEq, Repr

/-- The in-memory manifest `self.backup_manifest`: a JSON-object model, an
association list keyed by archive name, in insertion order (Python dicts
preserve insertion order). -/
abbrev Manifest := List (String × SnapInfo)

/-- State of the backup directory: the file names present in it, and the
persisted/in-memory manifest document. -/
structure StoreState where
  files : List String
  manifest : Manifest
deriving DecidableEq, Repr

/-- `BackupManager.__init__` key setup, `src/backup/manager.py` line 23:
`self.key = secret_key or Fernet.generate_key()`.  Inputs: the store's key file
(if any — the constructor performs no key-file IO at all), the optional
`secret_key` argument, and the freshly generated random key.  Output: the key
used by this manager instance, and the store's key file afterwards (unchanged:
nothing is read from or written to the store). -/
def initEncryption (keyFile : Option Nat) (secretKey : Option Nat) (freshKey : Nat) :
    Nat × Option Nat :=
  (secretKey.getD freshKey, keyFile)

/-- The stored manifest document as found on disk: either a parseable
serialization of a manifest, or corrupt bytes `json.load` cannot parse. -/
inductive StoredDoc : Type
  | valid (m : Manifest)
  | corrupt
deriving DecidableEq

/-- Model of `json.load` on the manifest file: returns the parsed document, or
raises `json.JSONDecodeError` on corrupt input. -/
def jsonLoad : StoredDoc → PyResult PyError Manifest
  | .valid m => .ok m
  | .corrupt => .exn .jsonDecodeError

/-- `BackupManager._load_manifest`: if `manifest.json` exists, `json.load` it
(the call is not wrapped in any `try`/`except`, so a parse error propagates out
of the constructor); if it does not exist, `self.backup_manifest` keeps its
initial value `{}`. -/
def loadManifest (file : Option StoredDoc) : PyResult PyError Manifest :=
  match file with
  | none => .ok []
  | some d => jsonLoad d

/-- An atomic filesystem action performed while saving the manifest.  Opening
a file with mode `'w'` truncates it; `json.dump` then appends the serialized
document incrementally (modelled character by character). -/
inductive WriteOp : Type
  | truncate
  | append (c : Char)
deriving DecidableEq

/-- Effect of one write action on the manifest file's content. -/
def applyOp (content : List Char) : WriteOp → List Char
  | .truncate => []
  | .append c => content ++ [c]

/-- Run a sequence of write actions against the current file content. -/
def runOps (content : List Char) (ops : List WriteOp) : List Char :=
  ops.foldl applyOp content

/-- `BackupManager._save_manifest` as its sequence of filesystem actions:
`open(manifest_path, 'w')` truncates the manifest file in place (no temporary
file, no rename), then `json.dump` streams the new document into it. -/
def saveManifestOps (doc : List Char) : List WriteOp :=
  WriteOp.truncate :: doc.map WriteOp.append

/-- Every on-disk content observable if the process crashes during the write:
the result of each prefix of the action sequence. -/
def crashResults (content : List Char) (ops : List WriteOp) : List (List Char) :=
  (List.range (ops.length + 1)).map (fun k => runOps content (ops.take k))

/-- The characters of the sealed-artifact suffix `".enc"`. -/
def encSuffix : List Char :=
  ['.', 'e', 'n', 'c']

/-- Python `f.endswith(".enc")`. -/
def endsWithEnc (s : String) : Bool :=
  encSuffix.isSuffixOf s.data

/-- Python `s.replace(".enc", "")`: delete every non-overlapping occurrence of
`".enc"`, scanning left to right. -/
def removeEnc : List Char → List Char
  | '.' :: 'e' :: 'n' :: 'c' :: rest => removeEnc rest
  | c :: rest => c :: removeEnc rest
  | [] => []

/-- `old_backup.replace(".enc", "")` on a file name. -/
def stripEnc (s : String) : String :=
  String.mk (removeEnc s.data)

/-- Python `name.replace(".tar.xz", "")`, used by `verify_backup` to derive the
manifest key from an artifact name. -/
def removeTarXz : List Char → List Char
  | '.' :: 't' :: 'a' :: 'r' :: '.' :: 'x' :: 'z' :: rest => removeTarXz rest
  | c :: rest => c :: removeTarXz rest
  | [] => []

/-- `sorted([f for f in os.listdir(self.backup_dir) if f.endswith(".enc")])`:
the store's sealed artifacts in Python's ascending string order. -/
def sortedEnc (st : StoreState) : List String :=
  List.insertionSort pyStrLe (st.files.filter endsWithEnc)

/-- The names `_rotate_backups` deletes: Python `backups[:-keep]`.  For
`keep > 0` this is all but the last `keep` elements; for `keep = 0` the slice
`[:-0]` means `[:0]`, the empty list. -/
def rotateRemoved (keep : Nat) (st : StoreState) : List String :=
  if keep = 0 then [] else (sortedEnc st).take ((sortedEnc st).length - keep)

/-- `BackupManager._rotate_backups(keep)`: when more than `keep` sealed
artifacts exist, remove each name in `backups[:-keep]` from the directory and
delete its manifest key (the name with `".enc"` stripped), then save the
manifest; otherwise do nothing. -/
def rotateBackups (keep : Nat) (st : StoreState) : StoreState :=
  if (sortedEnc st).length > keep then
    { files := st.files.filter (fun f => !(rotateRemoved keep st).contains f),
      manifest := (rotateRemoved keep st).foldl
        (fun m n => m.filter (fun kv => kv.1 != stripEnc n)) st.manifest }
  else st

/-- The sealed artifacts currently present in the store. -/
def encFiles (st : StoreState) : List String :=
  st.files.filter endsWithEnc

/-- `BackupManager._should_include`: `any(pattern in filename for pattern in
patterns)` (substring match). -/
def shouldInclude (filename : String) (patterns : List String) : Bool :=
  patterns.any (fun p => isSubstring p.data filename.data)

/-- `BackupManager._should_exclude`: `False` when no patterns are given, else
any-substring match. -/
def shouldExclude (filename : String) (patterns : Option (List String)) : Bool :=
  match patterns with
  | none => false
  | some ps => ps.any (fun p => isSubstring p.data filename.data)

/-- The files `os.walk` yields under the source root.  `os.walk` on a
nonexistent path yields nothing at all (its default `onerror` swallows the
listing error), so a missing root walks as the empty collection. -/
def walkFiles (source : Option (List (String × Bytes))) : List (String × Bytes) :=
  source.getD []

/-- `BackupManager._add_to_archive`: walk the source root and add every file
that passes the include/exclude pattern filters
(`if include and not ...include: continue`, `if exclude and ...exclude:
continue`). -/
def addToArchive (source : Option (List (String × Bytes)))
    (incl excl : Option (List String)) : List (String × Bytes) :=
  (walkFiles source).filter (fun e =>
    (match incl with
      | none => true
      | some ps => shouldInclude e.1 ps) && !shouldExclude e.1 excl)

/-- Python dict update `self.backup_manifest[archive_name] = backup_info`:
overwrite in place if the key exists, else append (insertion order kept). -/
def putAssoc (m : Manifest) (k : String) (v : SnapInfo) : Manifest :=
  if m.any (fun kv => kv.1 == k) then
    m.map (fun kv => if kv.1 == k then (k, v) else kv)
  else m ++ [(k, v)]

/-- `BackupManager.create_snapshot`: build the tar archive from the walked
source, hash it, encrypt it (`_encrypt_file` writes `<archive>.enc` and then
`os.remove`s the plaintext archive), hash and size the ciphertext — and then
build `backup_info`, whose `"original_size"` entry calls
`os.path.getsize(archive_path)` on the archive `_encrypt_file` has already
deleted.  That call raises `FileNotFoundError`, so the function propagates
before the manifest is ever updated; the sealed artifact is left behind as an
orphan.  The `.ok` branch below is the continuation the code would have run
had the archive still existed (manifest `put`, save, rotation). -/
def createSnapshot (retention compressionLevel key nonce : Nat) (ts : String)
    (incl excl : Option (List String))
    (source : Option (List (String × Bytes))) (st : StoreState) :
    PyResult PyError SnapInfo × StoreState :=
  let archiveName := "snapshot_" ++ ts ++ ".tar.xz"
  let entries := addToArchive source incl excl
  let archiveBytes := serializeEntries entries
  let original_hash := sha256Hex archiveBytes
  let encrypted := fernetEncrypt key nonce archiveBytes
  let final_hash := sha256Hex encrypted
  let file_size := encrypted.length
  let filesAfterEncrypt := st.files ++ [archiveName ++ ".enc"]
  let archivePathAfterEncrypt : Option Bytes := none
  match ospGetsize archivePathAfterEncrypt with
  | .exn e => (.exn e, { files := filesAfterEncrypt, manifest := st.manifest })
  | .ok original_size =>
    let info : SnapInfo :=
      { timestamp := ts, original_size := original_size, encrypted_size := file_size,
        original_hash := original_hash, final_hash := final_hash,
        incremental := false, compression_level := compressionLevel }
    let st1 : StoreState :=
      { files := filesAfterEncrypt, manifest := putAssoc st.manifest archiveName info }
    (.ok info, rotateBackups retention st1)

/-- The manifest-scan loop of `verify_backup`: at the first entry whose key
(with `".tar.xz"` stripped) occurs as a substring of the artifact path, return
the hash comparison; if no entry matches, return `False`. -/
def verifyLoop (currentHash : String) (bf : String) : Manifest → Bool
  | [] => false
  | (name, info) :: rest =>
    if isSubstring (removeTarXz name.data) bf.data then currentHash == info.final_hash
    else verifyLoop currentHash bf rest

/-- `BackupManager.verify_backup`: append `".enc"` if missing, then
`_calculate_hash` opens the artifact — a missing file raises
`FileNotFoundError` (nothing catches it) — and the manifest is scanned for a
matching entry.  `readFile` gives each path's content (`none` = missing). -/
def verifyBackup (readFile : String → Option Bytes) (manifest : Manifest)
    (backupFile : String) : PyResult PyError Bool :=
  let bf := if endsWithEnc backupFile then backupFile else backupFile ++ ".enc"
  match readFile bf with
  | none => .exn .fileNotFoundError
  | some data => .ok (verifyLoop (sha256Hex data) bf manifest)

/-- `BackupManager.list_backups`: `[{"name": k, **v} for k, v in
self.backup_manifest.items()]` — the manifest entries in dict (insertion)
order, with no sorting applied. -/
def listBackups (m : Manifest) : Manifest :=
  m.map (fun kv => kv)

end Pkg

/-! ## `src/backup.py` (`Legacy`) -/

namespace Legacy

/-- `BackupManager._init_encryption`: read `.encryption_key` from the backup
directory if it exists, otherwise generate a fresh key and write it there.
Inputs: the key file's contents (if present) and the freshly generated random
key; output: the key used, and the key file's contents afterwards. -/
def initEncryption (keyFile : Option Nat) (freshKey : Nat) : Nat × Nat :=
  match keyFile with
  | some k => (k, k)
  | none => (freshKey, freshKey)

/-- The per-snapshot manifest record written by `create_snapshot` in
`src/backup.py`. -/
structure LegacyManifest where
  name : String
  snapshot_file : String
  size_bytes : Nat
  integrity_hash : String
  created_at : String
  files_count : Nat
deriving DecidableEq, Repr

/-- A stored `<name>.manifest.json` document: parseable or corrupt. -/
inductive LegacyDoc : Type
  | valid (m : LegacyManifest)
  | corrupt
deriving DecidableEq

/-- The sample files `_create_dummy_data` writes into a missing source
directory. -/
def dummyFiles : List (String × String) :=
  [("sample1.txt", "Important document content"),
   ("sample2.txt", "Another important file"),
   ("config.json", "\x7b\"key\": \"value\"\x7d")]

/-- The files `create_snapshot` reads: the source tree's files when the source
directory exists (`some`), else the dummy samples `_create_dummy_data` has
just written into the freshly created directory. -/
def sourceFilesFor (source : Option (List (String × String))) : List (String × String) :=
  match source with
  | some fs => fs
  | none => dummyFiles

/-- `BackupManager.create_snapshot` of `src/backup.py`: auto-populate a
missing source, read every file, pack metadata and file map into one JSON
payload, compress (an invertible transform; modelled as the identity since no
claim depends on the compressed bytes), encrypt, and record the manifest. -/
def createSnapshot (key nonce : Nat) (ts : String) (customName : Option String)
    (source : Option (List (String × String))) : LegacyManifest :=
  let name := customName.getD ("backup_" ++ ts)
  let files := sourceFilesFor source
  let data := serializeEntries (files.map (fun e => (e.1, e.2.data.map Char.toNat)))
  let encrypted := fernetEncrypt key nonce data
  { name := name, snapshot_file := name ++ ".backup", size_bytes := encrypted.length,
    integrity_hash := sha256Hex encrypted, created_at := ts,
    files_count := files.length }

/-- `BackupManager.verify_integrity` of `src/backup.py`: return `False` when
the snapshot or its manifest file is missing; otherwise parse the manifest
(`json.loads` raises on a corrupt document) and compare the recomputed hash
with the recorded one. -/
def verify_integrity (snapshot : Option Bytes) (manifestDoc : Option LegacyDoc) :
    PyResult PyError Bool :=
  match snapshot with
  | none => .ok false
  | some d =>
    match manifestDoc with
    | none => .ok false
    | some (.valid m) => .ok (sha256Hex d == m.integrity_hash)
    | some .corrupt => .exn .jsonDecodeError

/-- Descending creation-time order between snapshot records (Python
`sorted(..., key=lambda x: x.get('created_at', ''), reverse=True)`). -/
abbrev createdDesc (a b : LegacyManifest) : Prop :=
  pyStrLe b.created_at a.created_at

instance : IsTotal LegacyManifest createdDesc :=
  ⟨fun a b => le_total (strKey b.created_at) (strKey a.created_at)⟩

instance : IsTrans LegacyManifest createdDesc :=
  ⟨fun _ _ _ hab hbc => le_trans hbc hab⟩

/-- `BackupManager.list_snapshots` of `src/backup.py`: collect the manifest of
every `*.backup` whose `<stem>.manifest.json` exists (`none` entries model
artifacts without a manifest, which are skipped), then sort by `created_at`,
most recent first. -/
def listSnapshots (input : List (Option LegacyManifest)) : List LegacyManifest :=
  List.insertionSort createdDesc (input.filterMap id)

/-- The snapshots `cleanup_old_snapshots` of `src/backup.py` keeps: the listing
is already most-recent-first, so `to_remove = snapshots[retention:]` keeps the
first `retention` entries; with at most `retention` snapshots nothing is
touched. -/
def cleanupRetained (retention : Nat) (input : List (Option LegacyManifest)) :
    List LegacyManifest :=
  let snapshots := listSnapshots input
  if snapshots.length ≤ retention then snapshots else snapshots.take retention

end Legacy

/-! ## `src/backup/scheduler.py` (`Sched`) -/

namespace Sched

/-- `IntegrityVerifier.get_hash`: stream the file through SHA-256 and return
the hex digest; a `FileNotFoundError` is caught and the empty string returned.
The file argument is its content, `none` when the path does not exist. -/
def get_hash (file : Option Bytes) : String :=
  match file with
  | some d => sha256Hex d
  | none => ""

/-- `IntegrityVerifier.verify_integrity`: compare the recomputed hash with the
expected one. -/
def verify_integrity (file : Option Bytes) (expected : String) : Bool :=
  get_hash file == expected

/-- Observable callback invocations made by the scheduler. -/
inductive SchedEvent (M E : Type) : Type
  | completed (m : M)
  | errored (e : E)
deriving DecidableEq, Repr

/-- One backup cycle as seen by the loop: `create_snapshot` (plus the
verify/notify steps of `_perform_backup`) either returns metadata or raises. -/
abbrev Cycle (M E : Type) := PyResult E M

/-- `BackupScheduler._perform_backup`: on success, store the completion time
and invoke `on_backup_complete` (when configured); on exception, log and
re-raise (`raise` at the end of its `except` block). -/
def performBackup {M E : Type} (onCompleteSet : Bool) (c : Cycle M E) :
    List (SchedEvent M E) × PyResult E Unit :=
  match c with
  | .ok m => ((if onCompleteSet then [SchedEvent.completed m] else []), .ok ())
  | .exn e => ([], .exn e)

/-- One iteration of `BackupScheduler._run_loop`: the `try` around
`_perform_backup` catches every `Exception`, logs, and routes it to `on_error`
when that callback is configured; the iteration itself never lets the
exception propagate. -/
def iterOnce {M E : Type} (onErrorSet onCompleteSet : Bool) (c : Cycle M E) :
    List (SchedEvent M E) × PyResult E Unit :=
  match performBackup onCompleteSet c with
  | (evs, .ok ()) => (evs, .ok ())
  | (evs, .exn e) => (evs ++ (if onErrorSet then [SchedEvent.errored e] else []), .ok ())

/-- `BackupScheduler._run_loop`: run one cycle per iteration until the stop
event is observed (the run is indexed by the cycles executed before the stop;
the inter-cycle `wait` only passes time and is elided).  An exception escaping
an iteration would terminate the background thread — that is the `.exn`
short-circuit below. -/
def runLoop {M E : Type} (onErrorSet onCompleteSet : Bool) :
    List (Cycle M E) → List (SchedEvent M E) × PyResult E Unit
  | [] => ([], .ok ())
  | c :: rest =>
    match iterOnce onErrorSet onCompleteSet c with
    | (evs, .exn e) => (evs, .exn e)
    | (evs, .ok ()) =>
      let r := runLoop onErrorSet onCompleteSet rest
      (evs ++ r.1, r.2)

end Sched

/-- Concrete store used to witness the rotation theorem: two sealed snapshots
and the manifest document alongside them. -/
def c2wSt : Pkg.StoreState :=
  { files := ["manifest.json", "snapshot_20240101_000000.tar.xz.enc",
      "snapshot_20240102_000000.tar.xz.enc"],
    manifest := [("snapshot_20240101_000000.tar.xz",
        ⟨"20240101_000000", 0, 2, "", "", false, 6⟩),
      ("snapshot_20240102_000000.tar.xz",
        ⟨"20240102_000000", 0, 2, "", "", false, 6⟩)] }

/-- Concrete manifest used against the listing claim: two entries in creation
(insertion) order, the older one first. -/
def c8Manifest : Pkg.Manifest :=
  [("snapshot_20240101_000000.tar.xz", ⟨"20240101_000000", 0, 2, "", "ha", false, 6⟩),
   ("snapshot_20240102_000000.tar.xz", ⟨"20240102_000000", 0, 2, "", "hb", false, 6⟩)]

/-! # Theorems -/

/-! ## Claim C1 — cipher key generated once, persisted, and reused -/

/-- Claim C1, counterexample: the package manager (`src/backup/manager.py`)
persists no key.  Two successive constructions against the same (initially
empty) store, neither given a `secret_key`, use their own freshly generated
keys: the first run leaves no key file behind, the second run's key differs
from the first's, and a payload sealed by the first run's cipher is not
decryptable by the second run's. -/
theorem c1_counterexample :
    (Pkg.initEncryption none none 1).2 = none ∧
    (Pkg.initEncryption ((Pkg.initEncryption none none 1).2) none 2).1 ≠
      (Pkg.initEncryption none none 1).1 ∧
    fernetDecrypt (Pkg.initEncryption ((Pkg.initEncryption none none 1).2) none 2).1
      (fernetEncrypt (Pkg.initEncryption none none 1).1 0 [42]) = none := by
  refine ⟨rfl, by decide, by decide⟩

/-- Claim C1, amended: the standalone manager (`src/backup.py`,
`_init_encryption`) does generate the key exactly once, persists it to
`.encryption_key` inside the store on the first run, and every later run
against the same store reads back that same key; the package manager
(`src/backup/manager.py`) performs no key-file IO at all — it uses the
caller-supplied `secret_key` or a fresh key per construction, leaving the
store's key file untouched, so cross-run decryptability there requires the
caller to supply the same key. -/
theorem c1_key_persistence (fresh1 fresh2 : Nat) (keyFile : Option Nat)
    (secret : Option Nat) (freshKey : Nat) :
    (Legacy.initEncryption none fresh1).2 = (Legacy.initEncryption none fresh1).1 ∧
    (Legacy.initEncryption (some (Legacy.initEncryption none fresh1).2) fresh2).1 =
      (Legacy.initEncryption none fresh1).1 ∧
    (Pkg.initEncryption keyFile secret freshKey).2 = keyFile := by
  refine ⟨rfl, rfl, rfl⟩

/-! ## Claim C2 — retention rotation -/

/-- Membership after folding the per-name manifest deletions: an entry
survives iff it was present and no removed name strips to its key. -/
theorem mem_foldl_manifest_filter (rem : List String) :
    ∀ (m0 : Pkg.Manifest) (kv : String × Pkg.SnapInfo),
      kv ∈ rem.foldl (fun m n => m.filter (fun e => e.1 != Pkg.stripEnc n)) m0 ↔
        kv ∈ m0 ∧ ∀ n ∈ rem, kv.1 ≠ Pkg.stripEnc n := by
  induction rem with
  | nil => intro m0 kv; simp
  | cons a rest ih =>
    intro m0 kv
    rw [List.foldl_cons, ih]
    simp only [List.mem_filter, bne_iff_ne, List.mem_cons]
    constructor
    · rintro ⟨⟨h1, h2⟩, h3⟩
      exact ⟨h1, fun n hn => hn.elim (fun he => he ▸ h2) (h3 n)⟩
    · rintro ⟨h1, h2⟩
      exact ⟨⟨h1, h2 a (Or.inl rfl)⟩, fun n hn => h2 n (Or.inr hn)⟩

/-- Claim C2, counterexample: with retention count `N = 0` and one existing
snapshot (`M = 1 > 0 = N`), rotation removes nothing — Python's `backups[:-0]`
is the empty slice — so one snapshot remains where the claim demands exactly
zero. -/
theorem c2_counterexample :
    (Pkg.encFiles
        (Pkg.rotateBackups 0
          { files := ["snapshot_20240101_000000.tar.xz.enc"],
            manifest := [("snapshot_20240101_000000.tar.xz",
              ⟨"20240101_000000", 0, 2, "", "", false, 6⟩)] })).length = 1 ∧
    0 < (Pkg.encFiles
        { files := ["snapshot_20240101_000000.tar.xz.enc"],
          manifest := [("snapshot_20240101_000000.tar.xz",
            ⟨"20240101_000000", 0, 2, "", "", false, 6⟩)] }).length := by
  constructor <;> decide

/-- Claim C2, amended: for the package manager's rotation the property holds
for every retention count `N ≥ 1` (the `N = 0` case is broken by the `[:-0]`
slice, which removes nothing): with a duplicate-free store listing, if at most
`N` sealed snapshots exist rotation changes nothing, and if more than `N`
exist then exactly `N` sealed snapshots remain, every removed name is gone
from the directory, every surviving name is at least as recent (in the
timestamp-derived name order Python sorts by) as every removed one, and the
manifest keeps exactly the entries whose key is not a removed name with
`".enc"` stripped.  The standalone manager's cleanup handles `N = 0`
correctly: it retains nothing. -/
theorem c2_rotation_retention (keep : Nat) (st : Pkg.StoreState)
    (hk : 1 ≤ keep) (hnd : st.files.Nodup) :
    ((Pkg.encFiles st).length ≤ keep → Pkg.rotateBackups keep st = st) ∧
    (keep < (Pkg.encFiles st).length →
      (Pkg.encFiles (Pkg.rotateBackups keep st)).length = keep ∧
      (∀ y ∈ Pkg.rotateRemoved keep st, y ∉ (Pkg.rotateBackups keep st).files) ∧
      (∀ x ∈ Pkg.encFiles (Pkg.rotateBackups keep st),
        ∀ y ∈ Pkg.rotateRemoved keep st, pyStrLe y x) ∧
      (∀ kv ∈ st.manifest, (∀ y ∈ Pkg.rotateRemoved keep st, kv.1 ≠ Pkg.stripEnc y) →
        kv ∈ (Pkg.rotateBackups keep st).manifest) ∧
      (∀ kv ∈ (Pkg.rotateBackups keep st).manifest,
        kv ∈ st.manifest ∧ ∀ y ∈ Pkg.rotateRemoved keep st, kv.1 ≠ Pkg.stripEnc y)) ∧
    (∀ input : List (Option Legacy.LegacyManifest), Legacy.cleanupRetained 0 input = []) := by
  have hperm : List.Perm (Pkg.sortedEnc st) (Pkg.encFiles st) :=
    List.perm_insertionSort pyStrLe (st.files.filter Pkg.endsWithEnc)
  have hlen : (Pkg.sortedEnc st).length = (Pkg.encFiles st).length := hperm.length_eq
  refine ⟨?_, ?_, ?_⟩
  · intro hM
    have hcond : ¬ ((Pkg.sortedEnc st).length > keep) := by omega
    simp [Pkg.rotateBackups, hcond]
  · intro hM
    have hcond : (Pkg.sortedEnc st).length > keep := by omega
    have hk0 : keep ≠ 0 := by omega
    have hrem : Pkg.rotateRemoved keep st =
        (Pkg.sortedEnc st).take ((Pkg.sortedEnc st).length - keep) := by
      simp [Pkg.rotateRemoved, hk0]
    have hrot : Pkg.rotateBackups keep st =
        { files := st.files.filter (fun f => !(Pkg.rotateRemoved keep st).contains f),
          manifest := (Pkg.rotateRemoved keep st).foldl
            (fun m n => m.filter (fun kv => kv.1 != Pkg.stripEnc n)) st.manifest } := by
      simp [Pkg.rotateBackups, hcond]
    have hsortednd : (Pkg.sortedEnc st).Nodup :=
      (hperm.nodup_iff).mpr (hnd.filter Pkg.endsWithEnc)
    have hsplit : Pkg.rotateRemoved keep st ++
        (Pkg.sortedEnc st).drop ((Pkg.sortedEnc st).length - keep) = Pkg.sortedEnc st := by
      rw [hrem]; exact List.take_append_drop _ _
    have hdisj : ∀ a ∈ (Pkg.sortedEnc st).drop ((Pkg.sortedEnc st).length - keep),
        a ∉ Pkg.rotateRemoved keep st := by
      intro a ha hmem
      have hnd2 := hsplit ▸ hsortednd
      exact (List.disjoint_of_nodup_append hnd2) hmem ha
    have hcont : ∀ (l : List String) (a : String), l.contains a = true ↔ a ∈ l := by
      intro l a
      exact List.elem_iff
    have hencAfter : Pkg.encFiles (Pkg.rotateBackups keep st) =
        (Pkg.encFiles st).filter (fun f => !(Pkg.rotateRemoved keep st).contains f) := by
      rw [hrot]
      show (st.files.filter _).filter Pkg.endsWithEnc = _
      rw [Pkg.encFiles, List.filter_filter, List.filter_filter]
      exact List.filter_congr (fun a _ => Bool.and_comm _ _)
    have hpermAfter : List.Perm (Pkg.encFiles (Pkg.rotateBackups keep st))
        ((Pkg.sortedEnc st).filter (fun f => !(Pkg.rotateRemoved keep st).contains f)) := by
      rw [hencAfter]
      exact (hperm.symm.filter _)
    have hfilterSorted : (Pkg.sortedEnc st).filter
        (fun f => !(Pkg.rotateRemoved keep st).contains f) =
        (Pkg.sortedEnc st).drop ((Pkg.sortedEnc st).length - keep) := by
      conv_lhs => rw [← hsplit]
      rw [List.filter_append]
      have h1 : (Pkg.rotateRemoved keep st).filter
          (fun f => !(Pkg.rotateRemoved keep st).contains f) = [] := by
        refine List.filter_eq_nil_iff.mpr (fun a ha => ?_)
        simp only [Bool.not_eq_true']
        rw [(hcont _ a).mpr ha]
        simp
      have h2 : ((Pkg.sortedEnc st).drop ((Pkg.sortedEnc st).length - keep)).filter
          (fun f => !(Pkg.rotateRemoved keep st).contains f) =
          (Pkg.sortedEnc st).drop ((Pkg.sortedEnc st).length - keep) := by
        refine List.filter_eq_self.mpr (fun a ha => ?_)
        have hnm : a ∉ Pkg.rotateRemoved keep st := hdisj a ha
        simp only [Bool.not_eq_true', ← Bool.not_eq_true]
        intro hc
        exact hnm ((hcont _ a).mp hc)
      rw [h1, h2, List.nil_append]
    have hpermDrop : List.Perm (Pkg.encFiles (Pkg.rotateBackups keep st))
        ((Pkg.sortedEnc st).drop ((Pkg.sortedEnc st).length - keep)) :=
      hfilterSorted ▸ hpermAfter
    refine ⟨?_, ?_, ?_, ?_, ?_⟩
    · rw [hpermDrop.length_eq, List.length_drop]
      omega
    · intro y hy hmem
      rw [hrot] at hmem
      rcases List.mem_filter.mp hmem with ⟨-, hnc⟩
      rw [Bool.not_eq_true', ← Bool.not_eq_true] at hnc
      exact hnc ((hcont _ y).mpr hy)
    · intro x hx y hy
      have hxdrop : x ∈ (Pkg.sortedEnc st).drop ((Pkg.sortedEnc st).length - keep) :=
        hpermDrop.mem_iff.mp hx
      have hsorted : List.Sorted pyStrLe (Pkg.sortedEnc st) :=
        List.sorted_insertionSort pyStrLe (st.files.filter Pkg.endsWithEnc)
      have hpw := (List.pairwise_append.mp (hsplit ▸ hsorted)).2.2
      exact hpw y hy x hxdrop
    · intro kv hkv hkeep
      rw [hrot]
      exact (mem_foldl_manifest_filter _ _ _).mpr ⟨hkv, hkeep⟩
    · intro kv hkv
      rw [hrot] at hkv
      exact (mem_foldl_manifest_filter _ _ _).mp hkv
  · intro input
    rw [Legacy.cleanupRetained]
    by_cases h : (Legacy.listSnapshots input).length ≤ 0
    · simp only [if_pos h]
      exact List.length_eq_zero.mp (by omega)
    · simp only [if_neg h, List.take_zero]

/-- Claim C2, witness: a store with two sealed snapshots and retention 1
keeps exactly the more recent one and drops the other's manifest entry. -/
theorem c2_rotation_retention_witness :
    (Pkg.encFiles (Pkg.rotateBackups 1 c2wSt)).length = 1 ∧
    (∀ y ∈ Pkg.rotateRemoved 1 c2wSt, y ∉ (Pkg.rotateBackups 1 c2wSt).files) ∧
    (∀ x ∈ Pkg.encFiles (Pkg.rotateBackups 1 c2wSt),
      ∀ y ∈ Pkg.rotateRemoved 1 c2wSt, pyStrLe y x) ∧
    (∀ kv ∈ c2wSt.manifest, (∀ y ∈ Pkg.rotateRemoved 1 c2wSt, kv.1 ≠ Pkg.stripEnc y) →
      kv ∈ (Pkg.rotateBackups 1 c2wSt).manifest) ∧
    (∀ kv ∈ (Pkg.rotateBackups 1 c2wSt).manifest,
      kv ∈ c2wSt.manifest ∧ ∀ y ∈ Pkg.rotateRemoved 1 c2wSt, kv.1 ≠ Pkg.stripEnc y) :=
  (c2_rotation_retention 1 c2wSt (by decide) (by decide)).2.1 (by decide)

/-! ## Claim C3 — atomicity of the manifest write -/

/-- Appending a document after a point leaves the accumulated content as a
left factor. -/
theorem runOps_map_append (cs : List Char) :
    ∀ acc : List Char, Pkg.runOps acc (cs.map Pkg.WriteOp.append) = acc ++ cs := by
  induction cs with
  | nil => intro acc; simp [Pkg.runOps]
  | cons c rest ih =>
    intro acc
    simpa [Pkg.runOps, Pkg.applyOp] using ih (acc ++ [c])

/-- Claim C3, counterexample: saving the manifest is not
write-to-temp-then-replace.  With previous document `"manifest-v1"` and new
document `"manifest-v2"`, the empty file is among the crash-observable states
(right after the truncating open), and it is neither the previous nor the new
complete document. -/
theorem c3_counterexample :
    ([] : List Char) ∈ Pkg.crashResults "manifest-v1".data
      (Pkg.saveManifestOps "manifest-v2".data) ∧
    ([] : List Char) ≠ "manifest-v1".data ∧
    ([] : List Char) ≠ "manifest-v2".data := by
  refine ⟨?_, by decide, by decide⟩
  have h : Pkg.runOps "manifest-v1".data
      ((Pkg.saveManifestOps "manifest-v2".data).take 1) = [] := rfl
  refine List.mem_map.mpr ⟨1, ?_, h⟩
  decide

/-- Claim C3, amended: `_save_manifest` writes the manifest in place (truncate,
then stream the new document); completing the write does persist the full new
document, but a crash mid-write can leave any intermediate stage — the
previous document survives only if the crash precedes the truncating open, and
every later crash point exposes a (possibly empty, possibly partial) left
part of the new document rather than "previous complete or new complete". -/
theorem c3_manifest_save (old new : List Char) (r : List Char)
    (hr : r ∈ Pkg.crashResults old (Pkg.saveManifestOps new)) :
    Pkg.runOps old (Pkg.saveManifestOps new) = new ∧
    (r = old ∨ ∃ t, r ++ t = new) := by
  constructor
  · simpa [Pkg.runOps, Pkg.saveManifestOps, Pkg.applyOp] using runOps_map_append new []
  · rcases List.mem_map.mp hr with ⟨k, -, hk⟩
    cases k with
    | zero => exact Or.inl (by simpa [Pkg.runOps] using hk.symm)
    | succ j =>
      refine Or.inr ⟨new.drop j, ?_⟩
      have htake : (Pkg.saveManifestOps new).take (j + 1) =
          Pkg.WriteOp.truncate :: (new.take j).map Pkg.WriteOp.append := by
        simp [Pkg.saveManifestOps, List.map_take]
      have hrun : Pkg.runOps old ((Pkg.saveManifestOps new).take (j + 1)) = new.take j := by
        rw [htake]
        simpa [Pkg.runOps, Pkg.applyOp] using runOps_map_append (new.take j) []
      rw [← hk, hrun, List.take_append_drop]

/-- Claim C3, witness: the crash state right after truncation, for concrete
old and new documents. -/
theorem c3_manifest_save_witness :
    Pkg.runOps "ab".data (Pkg.saveManifestOps "xyz".data) = "xyz".data ∧
    (([] : List Char) = "ab".data ∨ ∃ t, [] ++ t = "xyz".data) :=
  c3_manifest_save "ab".data "xyz".data []
    (by
      refine List.mem_map.mpr ⟨1, by decide, rfl⟩)

/-! ## Claim C4 — encryption round-trip -/

/-- `BackupManager._encrypt_file` at the byte level: the file's bytes are run
through `self.cipher.encrypt` (the write to `path + ".enc"` carries exactly
these bytes). -/
def Pkg.encryptFileBytes (key nonce : Nat) (data : Bytes) : Bytes :=
  fernetEncrypt key nonce data

/-- `BackupManager.decrypt_backup` at the byte level: the stored bytes are run
through `self.cipher.decrypt`; `InvalidToken` is modelled by `none`. -/
def Pkg.decryptBackupBytes (key : Nat) (data : Bytes) : Option Bytes :=
  fernetDecrypt key data

/-- Keystream XOR is an involution at any starting position. -/
theorem xorStream_involution (key nonce : Nat) :
    ∀ (i : Nat) (l : Bytes), xorStream key nonce i (xorStream key nonce i l) = l := by
  intro i l
  induction l generalizing i with
  | nil => rfl
  | cons b rest ih =>
    simp only [xorStream, Nat.xor_cancel_right, ih]

/-- Claim C4: for every byte payload, decrypting the sealed payload with the
same key returns the payload exactly (`open(seal(P)) == P`), while sealing is
randomized — two seals drawn with distinct nonces produce distinct
ciphertexts. -/
theorem c4_encrypt_roundtrip (key nonce nonce' : Nat) (p : Bytes)
    (hn : nonce ≠ nonce') :
    Pkg.decryptBackupBytes key (Pkg.encryptFileBytes key nonce p) = some p ∧
    Pkg.encryptFileBytes key nonce p ≠ Pkg.encryptFileBytes key nonce' p := by
  constructor
  · simp [Pkg.decryptBackupBytes, Pkg.encryptFileBytes, fernetEncrypt, fernetDecrypt,
      xorStream_involution]
  · intro h
    exact hn (List.head_eq_of_cons_eq h)

/-- Claim C4, witness at a concrete payload and nonces. -/
theorem c4_encrypt_roundtrip_witness :
    Pkg.decryptBackupBytes 9 (Pkg.encryptFileBytes 9 3 [0, 255, 17]) = some [0, 255, 17] ∧
    Pkg.encryptFileBytes 9 3 [0, 255, 17] ≠ Pkg.encryptFileBytes 9 4 [0, 255, 17] :=
  c4_encrypt_roundtrip 9 3 4 [0, 255, 17] (by decide)

/-! ## Claim C5 — missing source root -/

/-- Claim C5: with a nonexistent source root, the standalone manager
auto-populates the root with the three placeholder sample files
(`_create_dummy_data`) and archives those; the package manager walks the
missing root as empty and builds an empty archive, but its `create_snapshot`
then fails with a NotFound condition (`os.path.getsize` on the plaintext
archive `_encrypt_file` has already deleted raises `FileNotFoundError` while
`backup_info` is being built) before the manifest is updated — so neither
manager ever silently commits an empty archive for the missing path. -/
theorem c5_missing_source (retention clevel key nonce : Nat) (ts : String)
    (st : Pkg.StoreState) :
    Pkg.addToArchive none none none = [] ∧
    (Pkg.createSnapshot retention clevel key nonce ts none none none st).1 =
      .exn PyError.fileNotFoundError ∧
    ((Pkg.createSnapshot retention clevel key nonce ts none none none st).2).manifest =
      st.manifest ∧
    Legacy.sourceFilesFor none = Legacy.dummyFiles ∧
    (Legacy.createSnapshot key nonce ts none none).files_count = 3 :=
  ⟨rfl, rfl, rfl, rfl, rfl⟩

/-! ## Claim C6 — manifest load never fails -/

/-- Claim C6, counterexample: a corrupt (unparseable) `manifest.json` makes
`_load_manifest` raise `json.JSONDecodeError` — the `json.load` call is not
guarded — so construction of the manager fails instead of yielding an empty
manifest. -/
theorem c6_counterexample :
    Pkg.loadManifest (some Pkg.StoredDoc.corrupt) = .exn PyError.jsonDecodeError :=
  rfl

/-- Claim C6, amended: an absent manifest document is treated as an empty
manifest and construction succeeds; a present, parseable document is loaded
as-is; but a corrupt document raises a parse error out of the constructor
rather than being downgraded to an empty manifest. -/
theorem c6_manifest_load (m : Pkg.Manifest) :
    Pkg.loadManifest none = .ok [] ∧
    Pkg.loadManifest (some (Pkg.StoredDoc.valid m)) = .ok m ∧
    Pkg.loadManifest (some Pkg.StoredDoc.corrupt) = .exn PyError.jsonDecodeError :=
  ⟨rfl, rfl, rfl⟩

/-! ## Claim C7 — verify as a total boolean query -/

/-- Claim C7, counterexample: `verify_backup` on a missing artifact raises
`FileNotFoundError` (from `_calculate_hash` opening the file) instead of
returning `false`. -/
theorem c7_counterexample :
    Pkg.verifyBackup (fun _ => none) [] "snapshot_20240101_000000.tar.xz.enc" =
      .exn PyError.fileNotFoundError :=
  rfl

/-- Claim C7, amended: the standalone `verify_integrity` is a total boolean
query on the claim's cases — it returns `false`, without throwing, when the
artifact or its manifest document is missing, and otherwise returns the hash
comparison; the package `verify_backup` returns a boolean whenever the
artifact file is present (hash comparison against the first matching manifest
entry, `false` when no entry matches), but raises `FileNotFoundError` when
the artifact file is missing. -/
theorem c7_verify_total (s : Option Bytes) (md : Option Legacy.LegacyDoc)
    (m : Legacy.LegacyManifest) (d : Bytes)
    (rf : String → Option Bytes) (manifest : Pkg.Manifest) (bf : String) (data : Bytes)
    (hrf : rf (if Pkg.endsWithEnc bf then bf else bf ++ ".enc") = some data) :
    Legacy.verify_integrity none md = .ok false ∧
    Legacy.verify_integrity s none = .ok false ∧
    Legacy.verify_integrity (some d) (some (Legacy.LegacyDoc.valid m)) =
      .ok (sha256Hex d == m.integrity_hash) ∧
    Pkg.verifyBackup rf manifest bf =
      .ok (Pkg.verifyLoop (sha256Hex data)
        (if Pkg.endsWithEnc bf then bf else bf ++ ".enc") manifest) := by
  refine ⟨rfl, ?_, rfl, ?_⟩
  · cases s <;> rfl
  · rw [Pkg.verifyBackup]
    rw [hrf]

/-- Claim C7, witness: a present artifact and an empty manifest give the
boolean `false` without an exception. -/
theorem c7_verify_total_witness :
    Legacy.verify_integrity none none = .ok false ∧
    Legacy.verify_integrity (some [1]) none = .ok false ∧
    Legacy.verify_integrity (some [1])
        (some (Legacy.LegacyDoc.valid ⟨"n", "f", 0, "h", "t", 0⟩)) =
      .ok (sha256Hex [1] == "h") ∧
    Pkg.verifyBackup (fun _ => some [1]) [] "snapshot_x.tar.xz.enc" =
      .ok (Pkg.verifyLoop (sha256Hex [1])
        (if Pkg.endsWithEnc "snapshot_x.tar.xz.enc" then "snapshot_x.tar.xz.enc"
          else "snapshot_x.tar.xz.enc" ++ ".enc") []) :=
  c7_verify_total (some [1]) none ⟨"n", "f", 0, "h", "t", 0⟩ [1]
    (fun _ => some [1]) [] "snapshot_x.tar.xz.enc" [1] rfl

/-! ## Claim C8 — listing order -/

/-- Claim C8, counterexample: `list_backups` of the package manager returns
the manifest entries in insertion order.  On a manifest holding an older and
a newer snapshot in insertion (creation) order, the listing starts with the
older entry — it is not ordered most recent first. -/
theorem c8_counterexample :
    ¬ List.Sorted
        (fun a b : String × Pkg.SnapInfo => pyStrLe b.2.timestamp a.2.timestamp)
        (Pkg.listBackups c8Manifest) := by
  decide

/-- Claim C8, amended: the standalone manager's `list_snapshots` does return
snapshots ordered by creation time, most recent first (a permutation of the
collected manifest records, sorted descending by `created_at`); the package
manager's `list_backups` instead returns the manifest entries in dict
insertion order — oldest first under normal append-only operation — with no
sorting applied. -/
theorem c8_list_ordering (input : List (Option Legacy.LegacyManifest))
    (m : Pkg.Manifest) :
    List.Sorted Legacy.createdDesc (Legacy.listSnapshots input) ∧
    List.Perm (Legacy.listSnapshots input) (input.filterMap id) ∧
    Pkg.listBackups m = m :=
  ⟨List.sorted_insertionSort Legacy.createdDesc (input.filterMap id),
    List.perm_insertionSort Legacy.createdDesc (input.filterMap id),
    List.map_id m⟩

/-! ## Claim C9 — the scheduler loop survives failed cycles -/

/-- Each loop iteration swallows the cycle's exception. -/
theorem iterOnce_ok {M E : Type} (onErrorSet onCompleteSet : Bool) (c : Sched.Cycle M E) :
    (Sched.iterOnce onErrorSet onCompleteSet c).2 = .ok () := by
  cases c <;> simp [Sched.iterOnce, Sched.performBackup]

/-- Claim C9: with an `on_error` callback configured, the scheduler's worker
loop catches every exception raised by a backup cycle, routes it to
`on_error`, and proceeds to the next iteration: the loop processes every
cycle, never exits by propagating an exception, and emits an `errored` event
for each failing cycle. -/
theorem c9_scheduler_loop (M E : Type) (onErrorSet onCompleteSet : Bool)
    (hE : onErrorSet = true) (cycles : List (Sched.Cycle M E)) :
    (Sched.runLoop onErrorSet onCompleteSet cycles).2 = .ok () ∧
    (Sched.runLoop onErrorSet onCompleteSet cycles).1 =
      cycles.flatMap (fun c => (Sched.iterOnce onErrorSet onCompleteSet c).1) ∧
    (∀ e : E, PyResult.exn e ∈ cycles →
      Sched.SchedEvent.errored e ∈ (Sched.runLoop onErrorSet onCompleteSet cycles).1) := by
  subst hE
  induction cycles with
  | nil => exact ⟨rfl, rfl, fun e he => absurd he (List.not_mem_nil _)⟩
  | cons c rest ih =>
    obtain ⟨ih1, ih2, ih3⟩ := ih
    have hsplit : Sched.runLoop true onCompleteSet (c :: rest) =
        ((Sched.iterOnce true onCompleteSet c).1 ++
          (Sched.runLoop true onCompleteSet rest).1,
          (Sched.runLoop true onCompleteSet rest).2) := by
      cases c <;> simp [Sched.runLoop, Sched.iterOnce, Sched.performBackup]
    refine ⟨by rw [hsplit]; exact ih1, by rw [hsplit]; simpa using ih2, ?_⟩
    intro e he
    rw [hsplit]
    rcases List.mem_cons.mp he with hc | hrest
    · subst hc
      refine List.mem_append.mpr (Or.inl ?_)
      cases onCompleteSet <;> simp [Sched.iterOnce, Sched.performBackup]
    · exact List.mem_append.mpr (Or.inr (ih3 e hrest))

/-- Claim C9, witness: a run whose second cycle fails still processes the
third cycle, ends without propagating, and reports the failure. -/
theorem c9_scheduler_loop_witness :
    (Sched.runLoop (M := Nat) (E := Nat) true true
        [.ok 1, .exn 2, .ok 3]).2 = .ok () ∧
    (Sched.runLoop (M := Nat) (E := Nat) true true [.ok 1, .exn 2, .ok 3]).1 =
      [.ok 1, .exn 2, .ok 3].flatMap (fun c => (Sched.iterOnce true true c).1) ∧
    (∀ e : Nat, PyResult.exn e ∈ ([.ok 1, .exn 2, .ok 3] : List (Sched.Cycle Nat Nat)) →
      Sched.SchedEvent.errored e ∈
        (Sched.runLoop (M := Nat) (E := Nat) true true [.ok 1, .exn 2, .ok 3]).1) :=
  c9_scheduler_loop Nat Nat true true rfl [.ok 1, .exn 2, .ok 3]

/-! ## Claim C10 — hashing a missing file -/

/-- Claim C10: `IntegrityVerifier.get_hash` returns the empty string for a
missing file instead of raising, hence `IntegrityVerifier.verify_integrity` on
a missing file returns `true` exactly when the expected hash is the empty
string. -/
theorem c10_missing_file_hash (expected : String) :
    Sched.get_hash none = "" ∧
    (Sched.verify_integrity none expected = true ↔ expected = "") := by
  refine ⟨rfl, ?_⟩
  simp only [Sched.verify_integrity, Sched.get_hash, beq_iff_eq]
  exact ⟨fun h => h.symm, fun h => h.symm⟩

end AutoBackup
